import Mathlib

/-!
Reservas: barbershop appointment booking

A shallow embedding of the booking server (`src/app.js`) and of the booking
form logic (`src/frontend/src/components/TurnoForm.js`), followed by the
properties of the specification, each proved of the code or shown to fail on it.

* The store reached through `./supabaseClient` is a list of rows of the
  `turnos` table; each call to it either answers or reports an error.
* A route handler is a function from the store, the outcome of each store call
  it may make and the request, to the response, the store afterwards and the
  store calls it made.
* The form component is a record of its state hooks; each handler is a
  function on that record.
-/

namespace Reservas

/-! ## Server: `src/app.js` -/

/-- A row of the `turnos` table, which is also the body of `POST /reservar`. -/
structure Turno where
  nombre : String
  telefono : String
  fecha : String
  hora : String
  servicio : String
deriving DecidableEq, Repr

/-- Modelled from the spec: the `error` object in the answer of the external
store behind `./supabaseClient`; its `message` may be missing. -/
structure StoreError where
  message : Option String
deriving DecidableEq, Repr

/-- A call made on the store client. -/
inductive StoreCall where
  | selectFechaHora (fecha hora : String)
  | selectHora (fecha : String)
  | insert (filas : List Turno)
deriving DecidableEq, Repr

/-- Modelled from the spec: `supabase.from("turnos").select(..).eq(..)` of the
external store behind `./supabaseClient`. A failing call reports its error, a
succeeding one answers the stored rows that pass the equality filters. -/
def Store.select (turnos : List Turno) (fallo : Option StoreError)
    (filtro : Turno → Bool) : Except StoreError (List Turno) :=
  match fallo with
  | some e => .error e
  | none => .ok (turnos.filter filtro)

/-- Modelled from the spec: `supabase.from("turnos").insert(filas)` of the
external store behind `./supabaseClient`. A failing insert reports its error
and leaves the store as it was, a succeeding one adds the rows and answers
them. The second component is the store afterwards. -/
def Store.insert (turnos : List Turno) (fallo : Option StoreError)
    (filas : List Turno) : Except StoreError (List Turno) × List Turno :=
  match fallo with
  | some e => (.error e, turnos)
  | none => (.ok filas, turnos ++ filas)

/-- The JSON body of a response. -/
inductive Body where
  | error (error : String)
  | registrado (message : String) (data : List Turno)
  | reservado (reservado : Bool)
  | horasOcupadas (horasOcupadas : List String)
deriving DecidableEq, Repr

/-- An HTTP response: `res.status(..).json(..)`; `res.json(..)` alone is 200. -/
structure Response where
  status : Nat
  body : Body
deriving DecidableEq, Repr

/-- What running a handler gives: the response, the store afterwards and the
calls made on the store, in order. -/
structure Outcome where
  res : Response
  turnos : List Turno
  llamadas : List StoreCall
deriving DecidableEq, Repr

/-- JavaScript `a || b` on a possibly missing string: `b` when `a` is
`undefined` or the empty string. -/
def orElse (a : Option String) (b : String) : String :=
  match a with
  | some s => if s = "" then b else s
  | none => b

/-- The handler `app.post("/reservar")`. `errorConsulta` is what the store
reports on the availability query, `errorRegistro` what it reports on the
insert when the handler gets that far. -/
def reservar (turnos : List Turno) (errorConsulta errorRegistro : Option StoreError)
    (body : Turno) : Outcome :=
  let consulta := StoreCall.selectFechaHora body.fecha body.hora
  match Store.select turnos errorConsulta
      (fun t => t.fecha == body.fecha && t.hora == body.hora) with
  | .error _ =>
    { res := ⟨500, .error "Error al verificar la disponibilidad de los turnos."⟩,
      turnos := turnos, llamadas := [consulta] }
  | .ok turnosExistentes =>
    if turnosExistentes.length > 0 then
      { res := ⟨400, .error "Ya existe un turno reservado para la misma fecha y hora."⟩,
        turnos := turnos, llamadas := [consulta] }
    else
      let filas := [{ nombre := body.nombre, telefono := body.telefono, fecha := body.fecha,
                      hora := body.hora, servicio := body.servicio : Turno }]
      match Store.insert turnos errorRegistro filas with
      | (.error e, turnos1) =>
        { res := ⟨500, .error (orElse e.message "Error desconocido al registrar el turno.")⟩,
          turnos := turnos1, llamadas := [consulta, .insert filas] }
      | (.ok data, turnos1) =>
        { res := ⟨200, .registrado "Turno registrado con éxito!" data⟩,
          turnos := turnos1, llamadas := [consulta, .insert filas] }

/-- The handler `app.get("/verificar")`. -/
def verificar (turnos : List Turno) (error : Option StoreError) (fecha hora : String) :
    Outcome :=
  let consulta := StoreCall.selectFechaHora fecha hora
  match Store.select turnos error (fun t => t.fecha == fecha && t.hora == hora) with
  | .error _ =>
    { res := ⟨500, .error "Error al consultar la disponibilidad"⟩,
      turnos := turnos, llamadas := [consulta] }
  | .ok data =>
    if data.length > 0 then
      { res := ⟨200, .reservado true⟩, turnos := turnos, llamadas := [consulta] }
    else
      { res := ⟨200, .reservado false⟩, turnos := turnos, llamadas := [consulta] }

/-- The handler `app.get("/reservas-por-fecha")`. -/
def reservasPorFecha (turnos : List Turno) (error : Option StoreError) (fecha : String) :
    Outcome :=
  let consulta := StoreCall.selectHora fecha
  match Store.select turnos error (fun t => t.fecha == fecha) with
  | .error _ =>
    { res := ⟨500, .error "Error al obtener las reservas"⟩,
      turnos := turnos, llamadas := [consulta] }
  | .ok data =>
    let horasOcupadas := data.map (fun turno => turno.hora)
    { res := ⟨200, .horasOcupadas horasOcupadas⟩, turnos := turnos, llamadas := [consulta] }

/-- The store holds at most one appointment for every (date, time) pair. -/
def Unico (turnos : List Turno) : Prop :=
  ∀ fecha hora : String,
    (turnos.filter (fun t => t.fecha == fecha && t.hora == hora)).length ≤ 1

/-- The stores reachable from the empty store by `POST /reservar` requests run
one after another, whatever the store reports on each call. -/
inductive Alcanzable : List Turno → Prop where
  | vacio : Alcanzable []
  | paso (turnos : List Turno) (errorConsulta errorRegistro : Option StoreError)
      (body : Turno) :
      Alcanzable turnos →
      Alcanzable (reservar turnos errorConsulta errorRegistro body).turnos

/-! ## Client: `src/frontend/src/components/TurnoForm.js` -/

/-- A JavaScript `Date`, as milliseconds on the local wall clock counted from
1970-01-01 00:00 (a Thursday). -/
structure Date where
  time : Int
deriving DecidableEq, Repr

/-- The builtin `Date.prototype.getDay`: 0 is Sunday, 3 is Wednesday. -/
def Date.getDay (date : Date) : Int :=
  (date.time / 86400000 + 4) % 7

/-- The state hook `formData`. -/
structure FormData where
  nombre : String
  telefono : String
  fecha : Option Date
  hora : String
  servicio : String
deriving DecidableEq, Repr

/-- The object `newErrors` built by `validateForm`: a message per field in error. -/
structure Errors where
  nombre : Option String
  telefono : Option String
  fecha : Option String
  hora : Option String
  servicio : Option String
deriving DecidableEq, Repr

/-- The state hooks of the component `TurnoForm`. -/
structure TurnoForm where
  formData : FormData
  errors : Errors
  isSubmitting : Bool
  successMessage : String
  availabilityError : String
  horasOcupadas : List String
  diaCompletoOcupado : Bool
deriving DecidableEq, Repr

/-- The function `generateTimeOptions`: the loop `for (hour = 9; hour <= 22; hour++)`
pushing two entries per hour. -/
def generateTimeOptions : List String :=
  (List.range' 9 (22 + 1 - 9)).foldl
    (fun times hour =>
      let hourFormatted := if hour < 10 then "0" ++ toString hour else toString hour
      times ++ [hourFormatted ++ ":00", hourFormatted ++ ":30"])
    []

/-- The handler `handleDateChange`. `respuesta` is what the request
`GET /reservas-por-fecha` gives: the `horasOcupadas` of the answer, or a failure
of the request. -/
def handleDateChange (st : TurnoForm) (date : Option Date)
    (respuesta : Except String (List String)) : TurnoForm :=
  let st := { st with formData := { st.formData with fecha := date } }
  match date with
  | none => st
  | some _ =>
    match respuesta with
    | .ok horasOcupadas =>
      let st := { st with horasOcupadas := horasOcupadas }
      let allTimes := generateTimeOptions
      { st with diaCompletoOcupado := horasOcupadas.length == allTimes.length }
    | .error _ => { st with horasOcupadas := [] }

/-- The function `disableWednesdays`, passed to the date picker as `filterDate`:
the picker lets a date be selected when it answers `true`. -/
def disableWednesdays (st : TurnoForm) (date : Date) : Bool :=
  let day := date.getDay
  day != 3 && !st.diaCompletoOcupado

/-- The character class `[0-9]`. -/
def claseDigito (c : Char) : Bool :=
  '0' ≤ c && c ≤ '9'

/-- Backtracking match of `clase{lo,hi}` followed by the rest of the pattern
`k`: greedy, one more character of the class first, the rest of the pattern at
this position otherwise. -/
def matchRep (clase : Char → Bool) :
    Nat → Nat → List Char → (List Char → Bool) → Bool
  | lo, 0, cs, k => lo == 0 && k cs
  | lo, _ + 1, [], k => lo == 0 && k []
  | lo, hi + 1, c :: cs, k =>
    (clase c && matchRep clase (lo - 1) hi cs k) || (lo == 0 && k (c :: cs))

/-- The pattern `^[0-9]{10,15}$` tried at position `pos` of the input: `^` holds
at position 0 only and `$` at the end of the input only (no `m` flag). -/
def telefonoRegexAt (input : List Char) (pos : Nat) : Bool :=
  pos == 0 && matchRep claseDigito 10 15 (input.drop pos) (fun resto => resto.isEmpty)

/-- The call `telefonoRegex.test(s)`: the pattern is tried at every position of
the input, leftmost first. -/
def telefonoRegexTest (s : String) : Bool :=
  (List.range (s.data.length + 1)).any (telefonoRegexAt s.data)

/-- White space and line terminators, which `String.prototype.trim` strips. -/
def esEspacio (c : Char) : Bool :=
  let n := c.toNat
  n == 0x09 || n == 0x0A || n == 0x0B || n == 0x0C || n == 0x0D || n == 0x20 ||
  n == 0xA0 || n == 0x1680 || (0x2000 ≤ n && n ≤ 0x200A) || n == 0x2028 ||
  n == 0x2029 || n == 0x202F || n == 0x205F || n == 0x3000 || n == 0xFEFF

/-- The builtin `String.prototype.trim`. -/
def trim (s : String) : String :=
  ⟨((s.data.dropWhile esEspacio).reverse.dropWhile esEspacio).reverse⟩

/-- The function `validateForm`, with `now` for `new Date()`: the errors it
records with `setErrors` and the boolean it returns. -/
def validateForm (st : TurnoForm) (now : Date) : TurnoForm × Bool :=
  let formData := st.formData
  let newErrors : Errors :=
    { nombre := if trim formData.nombre = "" then some "El nombre es requerido" else none,
      telefono :=
        if !telefonoRegexTest formData.telefono then
          some "El teléfono debe contener solo números y tener entre 10 y 15 dígitos"
        else none,
      fecha :=
        match formData.fecha with
        | none => some "La fecha es requerida"
        | some fecha =>
          if fecha.time < now.time then some "La fecha no puede ser en el pasado" else none,
      hora := if formData.hora = "" then some "La hora es requerida" else none,
      servicio := if formData.servicio = "" then some "Debe seleccionar un servicio" else none }
  ({ st with errors := newErrors },
    newErrors.nombre.isNone && newErrors.telefono.isNone && newErrors.fecha.isNone &&
      newErrors.hora.isNone && newErrors.servicio.isNone)

/-- The enumeration the specification describes: the half-hour slots from 09:00
to 22:00 inclusive. -/
def slotsSpec : List String :=
  ["09:00", "09:30", "10:00", "10:30", "11:00", "11:30", "12:00", "12:30", "13:00",
   "13:30", "14:00", "14:30", "15:00", "15:30", "16:00", "16:30", "17:00", "17:30",
   "18:00", "18:30", "19:00", "19:30", "20:00", "20:30", "21:00", "21:30", "22:00"]

/-- The initial values of the state hooks of `TurnoForm`. -/
def estadoInicial : TurnoForm :=
  { formData := { nombre := "", telefono := "", fecha := none, hora := "", servicio := "" },
    errors := { nombre := none, telefono := none, fecha := none, hora := none, servicio := none },
    isSubmitting := false,
    successMessage := "",
    availabilityError := "",
    horasOcupadas := [],
    diaCompletoOcupado := false }

/-- The attribute `disabled` of the `hora` select. -/
def horaDisabled (st : TurnoForm) : Bool :=
  st.diaCompletoOcupado

/-- The attribute `disabled` of the submit button. -/
def submitDisabled (st : TurnoForm) : Bool :=
  st.isSubmitting || st.diaCompletoOcupado

/-! ## Theorems -/

theorem reservar_sin_errores (turnos : List Turno) (body : Turno) :
    reservar turnos none none body =
      if (turnos.filter (fun t => t.fecha == body.fecha && t.hora == body.hora)).length > 0 then
        { res := ⟨400, .error "Ya existe un turno reservado para la misma fecha y hora."⟩,
          turnos := turnos,
          llamadas := [.selectFechaHora body.fecha body.hora] }
      else
        { res := ⟨200, .registrado "Turno registrado con éxito!" [body]⟩,
          turnos := turnos ++ [body],
          llamadas := [.selectFechaHora body.fecha body.hora, .insert [body]] } := by
  simp only [reservar, Store.select, Store.insert]


theorem filter_length_pos_iff (turnos : List Turno) (fecha hora : String) :
    (turnos.filter (fun t => t.fecha == fecha && t.hora == hora)).length > 0 ↔
      ∃ t ∈ turnos, t.fecha = fecha ∧ t.hora = hora := by
  rw [gt_iff_lt, List.length_pos_iff_exists_mem]
  constructor
  · rintro ⟨t, ht⟩
    rw [List.mem_filter] at ht
    exact ⟨t, ht.1, by simpa using ht.2⟩
  · rintro ⟨t, ht, h⟩
    exact ⟨t, List.mem_filter.mpr ⟨ht, by simpa using h⟩⟩

/-- Whatever the store reports, `POST /reservar` either leaves the store as it
was or answers 200 having added the request to a store with no appointment at
its date and time. -/
theorem reservar_cases (turnos : List Turno) (errorConsulta errorRegistro : Option StoreError)
    (body : Turno) :
    ((reservar turnos errorConsulta errorRegistro body).res.status ≠ 200 ∧
      (reservar turnos errorConsulta errorRegistro body).turnos = turnos) ∨
    ((reservar turnos errorConsulta errorRegistro body).res.status = 200 ∧
      (reservar turnos errorConsulta errorRegistro body).turnos = turnos ++ [body] ∧
      (turnos.filter (fun t => t.fecha == body.fecha && t.hora == body.hora)).length = 0) := by
  cases errorConsulta with
  | some e => left; simp [reservar, Store.select]
  | none =>
    by_cases h : (turnos.filter (fun t => t.fecha == body.fecha && t.hora == body.hora)).length > 0
    · left; simp only [reservar, Store.select, if_pos h]; simp
    · cases errorRegistro with
      | some e => left; simp only [reservar, Store.select, if_neg h, Store.insert]; simp
      | none =>
        right; simp only [reservar, Store.select, if_neg h, Store.insert]
        exact ⟨trivial, trivial, by omega⟩

theorem unico_append (turnos : List Turno) (body : Turno) (h : Unico turnos)
    (hlibre : (turnos.filter (fun t => t.fecha == body.fecha && t.hora == body.hora)).length = 0) :
    Unico (turnos ++ [body]) := by
  intro fecha hora
  rw [List.filter_append, List.length_append]
  by_cases hb : body.fecha = fecha ∧ body.hora = hora
  · obtain ⟨hf, hh⟩ := hb
    subst hf hh
    rw [hlibre]
    simp
  · have : List.filter (fun t => t.fecha == fecha && t.hora == hora) [body] = [] := by
      rw [List.filter_eq_nil_iff]
      intro a ha
      rw [List.mem_singleton] at ha
      subst ha
      simpa using hb
    rw [this]
    simpa using h fecha hora

theorem verificar_sin_error (turnos : List Turno) (fecha hora : String) :
    (verificar turnos none fecha hora).res =
      ⟨200, .reservado (decide
        ((turnos.filter (fun t => t.fecha == fecha && t.hora == hora)).length > 0))⟩ := by
  simp only [verificar, Store.select]
  split <;> simp [*]

/-! ### Booking and availability -/

/-- C1: with no store error, on a store holding no appointment at (date, time),
of two `POST /reservar` requests for that date and time run one after the other
the first answers 200 and the second answers 400 with the conflict error. -/
theorem reservar_twice_conflict (turnos : List Turno) (primero segundo : Turno)
    (hlibre : ∀ t ∈ turnos, ¬ (t.fecha = primero.fecha ∧ t.hora = primero.hora))
    (hfecha : segundo.fecha = primero.fecha) (hhora : segundo.hora = primero.hora) :
    (reservar turnos none none primero).res.status = 200 ∧
    (reservar (reservar turnos none none primero).turnos none none segundo).res =
      ⟨400, .error "Ya existe un turno reservado para la misma fecha y hora."⟩ := by
  have h0 : ¬ (turnos.filter
      (fun t => t.fecha == primero.fecha && t.hora == primero.hora)).length > 0 := by
    rw [filter_length_pos_iff]
    rintro ⟨t, ht, h⟩
    exact hlibre t ht h
  have h1 : reservar turnos none none primero =
      { res := ⟨200, .registrado "Turno registrado con éxito!" [primero]⟩,
        turnos := turnos ++ [primero],
        llamadas := [.selectFechaHora primero.fecha primero.hora, .insert [primero]] } := by
    rw [reservar_sin_errores, if_neg h0]
  have h2 : ((turnos ++ [primero]).filter
      (fun t => t.fecha == segundo.fecha && t.hora == segundo.hora)).length > 0 := by
    rw [filter_length_pos_iff]
    exact ⟨primero, by simp, hfecha.symm, hhora.symm⟩
  rw [h1]
  refine ⟨rfl, ?_⟩
  rw [reservar_sin_errores, if_pos h2]

/-- The scenario of C1: Ana books 10:00 on an empty store, then Luis asks for
the same date and time. -/
theorem reservar_twice_conflict_witness :
    (reservar [] none none ⟨"Ana", "1122334455", "2025-06-12", "10:00", "Corte"⟩).res.status
      = 200 ∧
    (reservar
        (reservar [] none none ⟨"Ana", "1122334455", "2025-06-12", "10:00", "Corte"⟩).turnos
        none none ⟨"Luis", "1199887766", "2025-06-12", "10:00", "Afeitado"⟩).res =
      ⟨400, .error "Ya existe un turno reservado para la misma fecha y hora."⟩ :=
  reservar_twice_conflict [] ⟨"Ana", "1122334455", "2025-06-12", "10:00", "Corte"⟩
    ⟨"Luis", "1199887766", "2025-06-12", "10:00", "Afeitado"⟩
    (by intro t ht; cases ht) rfl rfl

/-- C2: when `POST /reservar` answers 200, `GET /verificar` for the same date
and time, run next on the resulting store with no store error, answers
`reservado: true`. -/
theorem verificar_after_reservar (turnos : List Turno)
    (errorConsulta errorRegistro : Option StoreError) (body : Turno)
    (hok : (reservar turnos errorConsulta errorRegistro body).res.status = 200) :
    (verificar (reservar turnos errorConsulta errorRegistro body).turnos none
      body.fecha body.hora).res = ⟨200, .reservado true⟩ := by
  rcases reservar_cases turnos errorConsulta errorRegistro body with h | h
  · exact absurd hok h.1
  · rw [h.2.1, verificar_sin_error]
    have : ((turnos ++ [body]).filter
        (fun t => t.fecha == body.fecha && t.hora == body.hora)).length > 0 := by
      rw [filter_length_pos_iff]
      exact ⟨body, by simp, rfl, rfl⟩
    simp [this]

/-- A successful booking on a store that already has other appointments, then
the availability check. -/
theorem verificar_after_reservar_witness :
    (reservar [⟨"Ana", "1122334455", "2025-06-12", "10:00", "Corte"⟩] none none
        ⟨"Luis", "1199887766", "2025-06-12", "10:30", "Afeitado"⟩).res.status = 200 ∧
    (verificar
        (reservar [⟨"Ana", "1122334455", "2025-06-12", "10:00", "Corte"⟩] none none
          ⟨"Luis", "1199887766", "2025-06-12", "10:30", "Afeitado"⟩).turnos
        none "2025-06-12" "10:30").res = ⟨200, .reservado true⟩ :=
  ⟨by decide,
    verificar_after_reservar [⟨"Ana", "1122334455", "2025-06-12", "10:00", "Corte"⟩] none none
      ⟨"Luis", "1199887766", "2025-06-12", "10:30", "Afeitado"⟩ (by decide)⟩

/-- C3: `POST /reservar` keeps the store with at most one appointment per
(date, time), whatever the store reports and whatever the request's outcome;
hence every store reachable from the empty one has at most one appointment per
(date, time). -/
theorem reservar_preserves_unico :
    (∀ (turnos : List Turno) (errorConsulta errorRegistro : Option StoreError) (body : Turno),
      Unico turnos → Unico (reservar turnos errorConsulta errorRegistro body).turnos) ∧
    (∀ turnos : List Turno, Alcanzable turnos → Unico turnos) := by
  have paso : ∀ (turnos : List Turno) (errorConsulta errorRegistro : Option StoreError)
      (body : Turno),
      Unico turnos → Unico (reservar turnos errorConsulta errorRegistro body).turnos := by
    intro turnos errorConsulta errorRegistro body h
    rcases reservar_cases turnos errorConsulta errorRegistro body with hc | hc
    · rw [hc.2]; exact h
    · rw [hc.2.1]; exact unico_append turnos body h hc.2.2
  refine ⟨paso, ?_⟩
  intro turnos hr
  induction hr with
  | vacio => intro fecha hora; simp
  | paso turnos errorConsulta errorRegistro body _ ih =>
    exact paso turnos errorConsulta errorRegistro body ih

/-- The invariant after a rejected second request for 10:00 on a store that
already holds that appointment. -/
theorem reservar_preserves_unico_witness :
    Unico [⟨"Ana", "1122334455", "2025-06-12", "10:00", "Corte"⟩] ∧
    Unico (reservar [⟨"Ana", "1122334455", "2025-06-12", "10:00", "Corte"⟩] none none
      ⟨"Luis", "1199887766", "2025-06-12", "10:00", "Afeitado"⟩).turnos :=
  have h : Unico [⟨"Ana", "1122334455", "2025-06-12", "10:00", "Corte"⟩] := by
    intro fecha hora
    exact le_trans (List.length_filter_le _ _) (le_refl 1)
  ⟨h, reservar_preserves_unico.1 _ none none _ h⟩

/-- C4: with no store error, `GET /verificar` answers `reservado: true` if and
only if some stored appointment has exactly that date and that time; so it
answers `reservado: false` for a date and time with no appointment. -/
theorem verificar_iff_exists (turnos : List Turno) (fecha hora : String) :
    (∃ b, (verificar turnos none fecha hora).res = ⟨200, .reservado b⟩ ∧
      (b = true ↔ ∃ t ∈ turnos, t.fecha = fecha ∧ t.hora = hora)) ∧
    ((∀ t ∈ turnos, ¬ (t.fecha = fecha ∧ t.hora = hora)) →
      (verificar turnos none fecha hora).res = ⟨200, .reservado false⟩) := by
  refine ⟨⟨_, verificar_sin_error turnos fecha hora, ?_⟩, ?_⟩
  · rw [decide_eq_true_iff, filter_length_pos_iff]
  · intro h
    rw [verificar_sin_error]
    have : ¬ (turnos.filter (fun t => t.fecha == fecha && t.hora == hora)).length > 0 := by
      rw [filter_length_pos_iff]
      rintro ⟨t, ht, h2⟩
      exact h t ht h2
    simp [this]

/-- A slot of the same day at another time is reported free. -/
theorem verificar_iff_exists_witness :
    (∀ t ∈ [(⟨"Ana", "1122334455", "2025-06-12", "10:00", "Corte"⟩ : Turno)],
      ¬ (t.fecha = "2025-06-12" ∧ t.hora = "10:30")) ∧
    (verificar [⟨"Ana", "1122334455", "2025-06-12", "10:00", "Corte"⟩] none
      "2025-06-12" "10:30").res = ⟨200, .reservado false⟩ :=
  have h : ∀ t ∈ [(⟨"Ana", "1122334455", "2025-06-12", "10:00", "Corte"⟩ : Turno)],
      ¬ (t.fecha = "2025-06-12" ∧ t.hora = "10:30") := by decide
  ⟨h, (verificar_iff_exists _ "2025-06-12" "10:30").2 h⟩

/-- C5: with no store error, `GET /reservas-por-fecha` answers 200 and a time is
in `horasOcupadas` if and only if some stored appointment of the requested date
has it; the list is empty when the date has no appointment, and appointments at
10:00 and 14:30 give exactly those two times. -/
theorem reservasPorFecha_exact :
    (∀ (turnos : List Turno) (fecha : String),
      ∃ hs, (reservasPorFecha turnos none fecha).res = ⟨200, .horasOcupadas hs⟩ ∧
        (∀ hora, hora ∈ hs ↔ ∃ t ∈ turnos, t.fecha = fecha ∧ t.hora = hora) ∧
        ((∀ t ∈ turnos, t.fecha ≠ fecha) → hs = [])) ∧
    (reservasPorFecha
        [⟨"Ana", "1122334455", "2025-06-12", "10:00", "Corte"⟩,
         ⟨"Eva", "1155443322", "2025-06-13", "11:00", "Corte"⟩,
         ⟨"Luis", "1199887766", "2025-06-12", "14:30", "Afeitado"⟩] none "2025-06-12").res =
      ⟨200, .horasOcupadas ["10:00", "14:30"]⟩ := by
  refine ⟨?_, by decide⟩
  intro turnos fecha
  refine ⟨_, rfl, ?_, ?_⟩
  · intro hora
    simp only [List.mem_map, List.mem_filter, beq_iff_eq]
    constructor
    · rintro ⟨t, ⟨ht, hf⟩, hh⟩
      exact ⟨t, ht, hf, hh⟩
    · rintro ⟨t, ht, hf, hh⟩
      exact ⟨t, ⟨ht, hf⟩, hh⟩
  · intro h
    rw [List.map_eq_nil_iff, List.filter_eq_nil_iff]
    intro t ht
    simpa using h t ht

/-- A date with no appointment gets the empty list. -/
theorem reservasPorFecha_exact_witness :
    (∀ t ∈ [(⟨"Ana", "1122334455", "2025-06-12", "10:00", "Corte"⟩ : Turno)],
      t.fecha ≠ "2025-06-14") ∧
    ∃ hs, (reservasPorFecha [⟨"Ana", "1122334455", "2025-06-12", "10:00", "Corte"⟩] none
        "2025-06-14").res = ⟨200, .horasOcupadas hs⟩ ∧ hs = [] :=
  have h : ∀ t ∈ [(⟨"Ana", "1122334455", "2025-06-12", "10:00", "Corte"⟩ : Turno)],
      t.fecha ≠ "2025-06-14" := by decide
  ⟨h, (reservasPorFecha_exact.1 _ "2025-06-14").elim
    (fun hs hhs => ⟨hs, hhs.1, hhs.2.2 h⟩)⟩

/-! ### Store errors -/

/-- C8, as the code has it: an error on the availability query gives 500 with
the handler's own fixed message, after that one query and no insert; an error
on the insert gives 500 with the store's message when it has a non-empty one and
with the handler's fallback message otherwise, after one query and one insert.
The store is left as it was in each case. -/
theorem reservar_store_error (turnos : List Turno) (body : Turno) (e : StoreError) :
    (∀ errorRegistro : Option StoreError,
      reservar turnos (some e) errorRegistro body =
        { res := ⟨500, .error "Error al verificar la disponibilidad de los turnos."⟩,
          turnos := turnos,
          llamadas := [.selectFechaHora body.fecha body.hora] }) ∧
    ((∀ t ∈ turnos, ¬ (t.fecha = body.fecha ∧ t.hora = body.hora)) →
      (∀ m : String, e.message = some m → m ≠ "" →
        reservar turnos none (some e) body =
          { res := ⟨500, .error m⟩,
            turnos := turnos,
            llamadas := [.selectFechaHora body.fecha body.hora, .insert [body]] }) ∧
      ((e.message = none ∨ e.message = some "") →
        reservar turnos none (some e) body =
          { res := ⟨500, .error "Error desconocido al registrar el turno."⟩,
            turnos := turnos,
            llamadas := [.selectFechaHora body.fecha body.hora, .insert [body]] })) := by
  refine ⟨fun _ => by simp [reservar, Store.select], ?_⟩
  intro hlibre
  have h0 : ¬ (turnos.filter
      (fun t => t.fecha == body.fecha && t.hora == body.hora)).length > 0 := by
    rw [filter_length_pos_iff]
    rintro ⟨t, ht, h⟩
    exact hlibre t ht h
  have h1 : reservar turnos none (some e) body =
      { res := ⟨500, .error (orElse e.message "Error desconocido al registrar el turno.")⟩,
        turnos := turnos,
        llamadas := [.selectFechaHora body.fecha body.hora, .insert [body]] } := by
    simp only [reservar, Store.select, if_neg h0, Store.insert]
  rw [h1]
  refine ⟨?_, ?_⟩
  · intro m hm hne
    simp [orElse, hm, hne]
  · rintro (hm | hm) <;> simp [orElse, hm]

/-- An insert that fails with the message of a unique-key violation. -/
theorem reservar_store_error_witness :
    (∀ t ∈ ([] : List Turno), ¬ (t.fecha = "2025-06-12" ∧ t.hora = "10:00")) ∧
    reservar [] none (some ⟨some "duplicate key value"⟩)
        ⟨"Ana", "1122334455", "2025-06-12", "10:00", "Corte"⟩ =
      { res := ⟨500, .error "duplicate key value"⟩,
        turnos := [],
        llamadas := [.selectFechaHora "2025-06-12" "10:00",
          .insert [⟨"Ana", "1122334455", "2025-06-12", "10:00", "Corte"⟩]] } :=
  have h : ∀ t ∈ ([] : List Turno), ¬ (t.fecha = "2025-06-12" ∧ t.hora = "10:00") := by
    intro t ht; cases ht
  ⟨h, ((reservar_store_error [] ⟨"Ana", "1122334455", "2025-06-12", "10:00", "Corte"⟩
    ⟨some "duplicate key value"⟩).2 h).1 "duplicate key value" rfl (by decide)⟩

/-- C8 as stated fails: a query error with message `connection timeout` is
answered with another error text, and an insert error with an empty message is
answered with a non-empty error text. -/
theorem reservar_store_error_not_verbatim :
    (reservar [] (some ⟨some "connection timeout"⟩) none
        ⟨"Ana", "1122334455", "2025-06-12", "10:00", "Corte"⟩).res =
      ⟨500, .error "Error al verificar la disponibilidad de los turnos."⟩ ∧
    (reservar [] (some ⟨some "connection timeout"⟩) none
        ⟨"Ana", "1122334455", "2025-06-12", "10:00", "Corte"⟩).res ≠
      ⟨500, .error "connection timeout"⟩ ∧
    (reservar [] none (some ⟨some ""⟩)
        ⟨"Ana", "1122334455", "2025-06-12", "10:00", "Corte"⟩).res ≠
      ⟨500, .error ""⟩ := by
  decide

/-! ### The time slots of the form -/

theorem generateTimeOptions_eq : generateTimeOptions = slotsSpec ++ ["22:30"] := by
  decide

theorem generateTimeOptions_length : generateTimeOptions.length = 28 := by
  decide

theorem generateTimeOptions_nodup : generateTimeOptions.Nodup := by
  decide

/-- C6, as the code has it: `generateTimeOptions` is the enumeration of the
half-hour slots from 09:00 to 22:30 inclusive, the slots of the specification
followed by 22:30; it has exactly 28 entries, the first is 09:00, the last is
22:30, and it has no duplicates. -/
theorem generateTimeOptions_enumeration :
    generateTimeOptions = slotsSpec ++ ["22:30"] ∧
    generateTimeOptions.length = 28 ∧
    generateTimeOptions.head? = some "09:00" ∧
    generateTimeOptions.getLast? = some "22:30" ∧
    generateTimeOptions.Nodup := by
  decide

/-- C6 as stated fails: the list has not 27 entries ending with 22:00. -/
theorem generateTimeOptions_not_27 :
    ¬ (generateTimeOptions.length = 27 ∧
      generateTimeOptions.head? = some "09:00" ∧
      generateTimeOptions.getLast? = some "22:00" ∧
      generateTimeOptions.Nodup) := by
  decide

/-! ### Phone validation -/

theorem matchRep_end_iff (lo hi : Nat) (cs : List Char) :
    matchRep claseDigito lo hi cs (fun resto => resto.isEmpty) = true ↔
      (∀ c ∈ cs, claseDigito c = true) ∧ lo ≤ cs.length ∧ cs.length ≤ hi := by
  induction hi generalizing lo cs with
  | zero =>
    cases cs with
    | nil => simp [matchRep]
    | cons c cs => simp [matchRep]
  | succ hi ih =>
    cases cs with
    | nil => simp [matchRep]
    | cons c cs =>
      simp only [matchRep, List.isEmpty_cons, Bool.and_false, Bool.or_false,
        Bool.and_eq_true, ih, List.mem_cons, forall_eq_or_imp, List.length_cons]
      constructor
      · rintro ⟨hc, hall, h1, h2⟩
        exact ⟨⟨hc, hall⟩, by omega, by omega⟩
      · rintro ⟨⟨hc, hall⟩, h1, h2⟩
        exact ⟨hc, hall, by omega, by omega⟩

theorem telefonoRegexTest_iff (s : String) :
    telefonoRegexTest s = true ↔
      (∀ c ∈ s.data, '0' ≤ c ∧ c ≤ '9') ∧ 10 ≤ s.length ∧ s.length ≤ 15 := by
  have h : telefonoRegexTest s = true ↔
      matchRep claseDigito 10 15 s.data (fun resto => resto.isEmpty) = true := by
    simp only [telefonoRegexTest, List.any_eq_true, List.mem_range, telefonoRegexAt,
      Bool.and_eq_true, beq_iff_eq]
    constructor
    · rintro ⟨pos, _, hpos, hm⟩
      subst hpos
      simpa using hm
    · intro hm
      exact ⟨0, by omega, rfl, by simpa using hm⟩
  have hc : ∀ c : Char, claseDigito c = true ↔ '0' ≤ c ∧ c ≤ '9' := by
    intro c
    simp only [claseDigito, Bool.and_eq_true, decide_eq_true_eq]
  rw [h, matchRep_end_iff]
  simp only [hc]
  cases s
  rfl

/-- C7: `validateForm` records no `telefono` error if and only if the phone
consists only of the digits 0-9 and has between 10 and 15 characters; `12345`
and `abc1234567` get the error, `0123456789` does not. -/
theorem validateForm_telefono :
    (∀ (st : TurnoForm) (now : Date),
      (validateForm st now).1.errors.telefono = none ↔
        (∀ c ∈ st.formData.telefono.data, '0' ≤ c ∧ c ≤ '9') ∧
          10 ≤ st.formData.telefono.length ∧ st.formData.telefono.length ≤ 15) ∧
    (∀ (st : TurnoForm) (now : Date),
      (validateForm { st with formData := { st.formData with telefono := "12345" } }
        now).1.errors.telefono ≠ none) ∧
    (∀ (st : TurnoForm) (now : Date),
      (validateForm { st with formData := { st.formData with telefono := "0123456789" } }
        now).1.errors.telefono = none) ∧
    (∀ (st : TurnoForm) (now : Date),
      (validateForm { st with formData := { st.formData with telefono := "abc1234567" } }
        now).1.errors.telefono ≠ none) := by
  have key : ∀ (st : TurnoForm) (now : Date),
      (validateForm st now).1.errors.telefono = none ↔
        telefonoRegexTest st.formData.telefono = true := by
    intro st now
    simp only [validateForm]
    cases telefonoRegexTest st.formData.telefono <;> simp
  refine ⟨fun st now => (key st now).trans (telefonoRegexTest_iff _), ?_, ?_, ?_⟩
  · intro st now h
    have h1 : telefonoRegexTest "12345" = true := (key _ now).mp h
    exact absurd h1 (by decide)
  · intro st now
    have h1 : telefonoRegexTest "0123456789" = true := by decide
    exact (key _ now).mpr h1
  · intro st now h
    have h1 : telefonoRegexTest "abc1234567" = true := (key _ now).mp h
    exact absurd h1 (by decide)

/-! ### The date picker and the fully booked day -/

theorem handleDateChange_diaCompletoOcupado (st : TurnoForm) (date : Date)
    (hs : List String) :
    (handleDateChange st (some date) (.ok hs)).diaCompletoOcupado =
      (hs.length == generateTimeOptions.length) :=
  rfl

theorem disableWednesdays_iff (st : TurnoForm) (date : Date) :
    disableWednesdays st date = true ↔ date.getDay ≠ 3 ∧ st.diaCompletoOcupado = false := by
  simp [disableWednesdays]

/-- C9 fails on the code: after the Thursday 1970-01-01 is found fully booked,
`disableWednesdays` refuses the Friday 1970-01-02 too, though it is another
date and not a Wednesday, whereas it accepted that Friday before. -/
theorem disableWednesdays_refuses_other_dates :
    disableWednesdays estadoInicial ⟨86400000⟩ = true ∧
    (handleDateChange estadoInicial (some ⟨0⟩) (.ok generateTimeOptions)).diaCompletoOcupado
      = true ∧
    (Date.mk 0).getDay = 4 ∧
    (Date.mk 86400000).getDay = 5 ∧
    Date.mk 86400000 ≠ Date.mk 0 ∧
    disableWednesdays (handleDateChange estadoInicial (some ⟨0⟩) (.ok generateTimeOptions))
      ⟨86400000⟩ = false := by
  decide

/-- C10, as the code has it: for an occupied-times list without duplicates and
within the enumeration, `handleDateChange` sets `diaCompletoOcupado`, which
disables the time select and the submit button, if and only if the list has 28
entries, the length of the enumeration, which holds if and only if every slot of
the enumeration is occupied. -/
theorem handleDateChange_full_iff (st : TurnoForm) (date : Date) (hs : List String)
    (hnodup : hs.Nodup) (hsub : ∀ h ∈ hs, h ∈ generateTimeOptions) :
    ((handleDateChange st (some date) (.ok hs)).diaCompletoOcupado = true ↔
      hs.length = 28) ∧
    (hs.length = 28 ↔ ∀ t ∈ generateTimeOptions, t ∈ hs) ∧
    ((handleDateChange st (some date) (.ok hs)).diaCompletoOcupado = true →
      horaDisabled (handleDateChange st (some date) (.ok hs)) = true ∧
      submitDisabled (handleDateChange st (some date) (.ok hs)) = true) := by
  refine ⟨?_, ?_, ?_⟩
  · rw [handleDateChange_diaCompletoOcupado, generateTimeOptions_length]
    simp
  · have hle : hs.length ≤ 28 := by
      rw [← generateTimeOptions_length]
      exact (List.subperm_of_subset hnodup hsub).length_le
    constructor
    · intro hlen
      have hperm : hs.Perm generateTimeOptions :=
        (List.subperm_of_subset hnodup hsub).perm_of_length_le
          (by rw [generateTimeOptions_length, hlen])
      intro t ht
      exact hperm.symm.subset ht
    · intro hall
      have hge : generateTimeOptions.length ≤ hs.length :=
        (List.subperm_of_subset generateTimeOptions_nodup hall).length_le
      rw [generateTimeOptions_length] at hge
      omega
  · intro h
    simp [horaDisabled, submitDisabled, h]

/-- The day with every slot of the enumeration occupied is marked full. -/
theorem handleDateChange_full_iff_witness :
    generateTimeOptions.Nodup ∧ (∀ h ∈ generateTimeOptions, h ∈ generateTimeOptions) ∧
    (handleDateChange estadoInicial (some ⟨0⟩) (.ok generateTimeOptions)).diaCompletoOcupado
      = true :=
  ⟨by decide, fun _ h => h,
    (handleDateChange_full_iff estadoInicial ⟨0⟩ generateTimeOptions (by decide)
      (fun _ h => h)).1.mpr (by decide)⟩

/-- C10 as stated fails: the 27 slots from 09:00 to 22:00 are distinct times of
the enumeration, and with them occupied the day is not marked full. -/
theorem handleDateChange_27_not_full :
    slotsSpec.Nodup ∧ (∀ h ∈ slotsSpec, h ∈ generateTimeOptions) ∧ slotsSpec.length = 27 ∧
    (handleDateChange estadoInicial (some ⟨0⟩) (.ok slotsSpec)).diaCompletoOcupado = false ∧
    ¬ (∀ t ∈ generateTimeOptions, t ∈ slotsSpec) := by
  decide

end Reservas
